import Mathlib

/-!
Verification of the autokraft-backend order-intake pipeline.

The repository contains several near-duplicate implementations of the same
intake pipeline:
* `server.js` holds two complete servers: the original handler (first half of
  the file, `app.post('/api/orders')` with a single combined required-fields
  check and a synchronous `fs.unlinkSync` in its catch) and the enhanced
  handler (second half, with the `missingFields` filter, a guarded
  `JSON.parse`, schema-level validators and an asynchronous `fs.unlink`
  callback in its catch).
* `src/routes/orders.js` holds a router variant with a prefix-based file
  filter (`mimetype.startsWith('image/')`), no size limit, an empty-cart
  check, a partial required-fields check, and no compensating deletion.

All three are embedded below.  Multer's file filtering/size limiting runs
before the route handler; its observable contract (reject before the handler,
remove partial bytes on failure) is taken from the configuration in the
source plus the documented middleware behaviour.
-/

namespace Autokraft

/-- Customer info subdocument of an order (`customerInfo` in the schemas). -/
structure CustomerInfo where
  name : String
  email : String
  phone : String
  address : String
  pincode : String
  city : String
deriving Repr, DecidableEq

/-- A product element as it comes out of `JSON.parse(body.products)` after the
mongoose cast: each field is `none` when the raw JSON element lacks it (or
holds a value that cannot be cast to the declared type — both surface as an
error on that path). -/
structure RawProduct where
  productId : Option String
  name : Option String
  price : Option Int
  quantity : Option Int
  image : Option String
deriving Repr, DecidableEq

/-- The raw `products` body string is represented by its `JSON.parse`
outcome: `malformed` for a string on which `JSON.parse` throws,
`list ps` for a string parsing to an array (elements abstracted to
`RawProduct`), and `nonList` for a string parsing to a non-array value. -/
inductive ProductsField where
  | malformed : ProductsField
  | list (ps : List RawProduct) : ProductsField
  | nonList : ProductsField
deriving Repr, DecidableEq

/-- Multipart body of an order submission.  String fields are `none` when
absent; `some ""` models a present-but-empty field (JS treats both as falsy).
`status` models a client-supplied `status` field, which no handler reads. -/
structure Body where
  name : Option String
  email : Option String
  phone : Option String
  address : Option String
  pincode : Option String
  city : Option String
  totalAmount : Option String
  products : Option ProductsField
  status : Option String
deriving Repr, DecidableEq

/-- The uploaded payment-screenshot file part: declared MIME type, byte size
and the unique stored filename multer assigns. -/
structure UploadFile where
  mimetype : String
  size : Nat
  filename : String
deriving Repr, DecidableEq

/-- A persisted order document.  `orderDate` is the creation timestamp
(`orderDate: {default: Date.now}` in the schemas that declare it; for the
original server schema, which only has mongoose `createdAt`, the same field
models that creation timestamp). -/
structure Order where
  customerInfo : CustomerInfo
  products : List RawProduct
  totalAmount : Int
  paymentScreenshot : String
  orderDate : Nat
  status : String
deriving Repr, DecidableEq

/-- Machine-readable classification of a submission outcome.  Each
constructor corresponds to one distinct response/throw site in the source;
`saveFailed` and `persistenceError` both surface as the generic 500/400
failure response, but carry the mongoose `ValidationError` field paths
resp. the storage-layer failure that produced them. -/
inductive IntakeResult where
  | missingPaymentProof : IntakeResult
  | unsupportedMediaType : IntakeResult
  | payloadTooLarge : IntakeResult
  | missingFields (fields : List String) : IntakeResult
  | allFieldsRequired : IntakeResult
  | invalidProductsFormat : IntakeResult
  | emptyCart : IntakeResult
  | requiredMissingGeneric : IntakeResult
  | processingFailed : IntakeResult
  | saveFailed (invalidFields : List String) : IntakeResult
  | persistenceError : IntakeResult
  | created (o : Order) : IntakeResult
deriving Repr, DecidableEq

/-- Full observable outcome of one submission: the response classification,
the uploaded file still sitting in upload storage afterwards (if any),
whether the compensating deletion was invoked, and the persisted orders. -/
structure Outcome where
  result : IntakeResult
  storedFile : Option String
  unlinkCalled : Bool
  orders : List Order
deriving Repr, DecidableEq

/-- JS truthiness of a string body field: absent and `''` are both falsy. -/
def fieldPresent : Option String → Bool
  | none => false
  | some s => s ≠ ""

/-- Truthiness of the raw `products` body string (a present parse outcome
means the raw string was non-empty, hence truthy). -/
def productsPresent : Option ProductsField → Bool
  | none => false
  | some _ => true

/-- `requiredFields` from the enhanced handler (server.js). -/
def requiredFields : List String :=
  ["name", "email", "phone", "address", "pincode", "city", "totalAmount", "products"]

/-- `body[field]` truthiness per required field name. -/
def bodyHas (b : Body) : String → Bool
  | "name" => fieldPresent b.name
  | "email" => fieldPresent b.email
  | "phone" => fieldPresent b.phone
  | "address" => fieldPresent b.address
  | "pincode" => fieldPresent b.pincode
  | "city" => fieldPresent b.city
  | "totalAmount" => fieldPresent b.totalAmount
  | "products" => productsPresent b.products
  | _ => false

/-- `requiredFields.filter(field => !body[field])` — the enhanced handler's
accumulating missing-fields computation. -/
def missingFieldsOf (b : Body) : List String :=
  requiredFields.filter (fun f => !(bodyHas b f))

/-- The exact MIME allow-list of both server.js multer configurations. -/
def allowedTypes : List String := ["image/jpeg", "image/png", "image/jpg"]

/-- server.js `fileFilter`: accept exactly the types in the allow-list. -/
def fileFilter (mimetype : String) : Bool := allowedTypes.contains mimetype

/-- routes/orders.js file filter: `file.mimetype.startsWith('image/')`,
i.e. accept any declared type whose UTF-8 text begins with `image/`. -/
def routesFileFilter (mimetype : String) : Bool :=
  List.isPrefixOf "image/".toList mimetype.toList

/-- `limits: { fileSize: 5 * 1024 * 1024 }` in both server.js multer
configurations (the router configures no limit). -/
def maxFileSize : Nat := 5 * 1024 * 1024

/-- Whether the character list has a `'.'` strictly inside it (at least one
character before and after) — the `.+\..+` part of the email pattern. -/
def dotInside (l : List Char) : Bool :=
  match l with
  | [] => false
  | _ :: rest => rest.dropLast.contains '.'

/-- The enhanced schema's email check `/.+\@.+\..+/` (an unanchored test):
some `'@'` preceded by at least one character and followed by a segment
containing a properly surrounded `'.'`. -/
def emailShape (s : String) : Bool :=
  let l := s.toList
  (List.range l.length).any (fun i =>
    decide (0 < i) && (l.getD i ' ' == '@') && dotInside (l.drop (i + 1)))

/-- The enhanced schema's phone validator `/^\d{10}$/`: exactly ten decimal
digits. -/
def phoneValid (s : String) : Bool :=
  (s.length == 10) && s.toList.all (fun c => c.isDigit)

/-- Digits-only decimal reading used by `parseNumber`. -/
def parseDigits : List Char → Option Nat
  | [] => none
  | l =>
    if l.all Char.isDigit then
      some (l.foldl (fun acc c => acc * 10 + (c.toNat - '0'.toNat)) 0)
    else none

/-- Numeric cast of a body string (JS `Number()` / the mongoose `Number`
cast), embedded for the integer literals that occur in the modelled flows:
an optional leading `'-'` followed by decimal digits; anything else is `NaN`
(`none`), which the schema cast turns into an error on that path. -/
def parseNumber (s : String) : Option Int :=
  match s.toList with
  | '-' :: rest => (parseDigits rest).map (fun n => -(n : Int))
  | l => (parseDigits l).map (fun n => (n : Int))

/-- The `customerInfo` subdocument the handlers construct from the body.
An absent body field and an empty one fail the schema `required` check
identically, so absence collapses to `""` here. -/
def customerOf (b : Body) : CustomerInfo :=
  ⟨b.name.getD "", b.email.getD "", b.phone.getD "", b.address.getD "",
   b.pincode.getD "", b.city.getD ""⟩

/-- mongoose `required` on a `String` path: fails on the empty string. -/
def requiredStr (path : String) (v : String) : List String :=
  if v = "" then [path] else []

/-- Failing paths of the enhanced schema's `customerInfo` validators
(mongoose validates every path and aggregates; paths listed in schema
order). -/
def v2CustomerErrors (c : CustomerInfo) : List String :=
  requiredStr "customerInfo.name" c.name ++
  (if emailShape c.email then [] else ["customerInfo.email"]) ++
  (if phoneValid c.phone then [] else ["customerInfo.phone"]) ++
  requiredStr "customerInfo.address" c.address ++
  requiredStr "customerInfo.pincode" c.pincode ++
  requiredStr "customerInfo.city" c.city

/-- Failing paths of one product subdocument under the enhanced schema:
`productId`/`name` required strings, `price` required with `min 0`,
`quantity` required with `min 1`. -/
def v2ProductErrors (i : Nat) (p : RawProduct) : List String :=
  let pre := "products." ++ toString i ++ "."
  (match p.productId with
   | none => [pre ++ "productId"]
   | some s => if s = "" then [pre ++ "productId"] else []) ++
  (match p.name with
   | none => [pre ++ "name"]
   | some s => if s = "" then [pre ++ "name"] else []) ++
  (match p.price with
   | none => [pre ++ "price"]
   | some v => if v < 0 then [pre ++ "price"] else []) ++
  (match p.quantity with
   | none => [pre ++ "quantity"]
   | some v => if v < 1 then [pre ++ "quantity"] else [])

/-- Failing product paths across the whole list, indexed as mongoose does. -/
def v2ProductErrorsAux : Nat → List RawProduct → List String
  | _, [] => []
  | i, p :: rest => v2ProductErrors i p ++ v2ProductErrorsAux (i + 1) rest

/-- Failing paths for `totalAmount` under the enhanced schema: the handler
casts `Number(body.totalAmount)`; a `NaN` cast or a negative value (the
`min 0` validator) fails the path. -/
def v2TotalErrors (raw : Option String) : List String :=
  match raw with
  | none => ["totalAmount"]
  | some s =>
    match parseNumber s with
    | none => ["totalAmount"]
    | some v => if v < 0 then ["totalAmount"] else []

/-- All failing paths the enhanced schema reports on `save()`: mongoose runs
the validators of every path and aggregates them into one
`ValidationError`. -/
def v2ValidationErrors (b : Body) (ps : List RawProduct) : List String :=
  v2CustomerErrors (customerOf b) ++ v2ProductErrorsAux 0 ps ++
    v2TotalErrors b.totalAmount

/-- The order document the server handlers construct: customer info from
the body, the parsed products, the cast totalAmount,
`paymentScreenshot: '/uploads/<filename>'`, creation timestamp, and the
schema-default status `pending` (the handlers never pass a status). -/
def v2NewOrder (b : Body) (ps : List RawProduct) (f : UploadFile) (now : Nat) :
    Order :=
  ⟨customerOf b, ps, (parseNumber (b.totalAmount.getD "")).getD 0,
   "/uploads/" ++ f.filename, now, "pending"⟩

/-- The save stage of the enhanced handler: construct the order document,
run schema validation, then attempt the insert.  A mongoose
`ValidationError` or a storage failure (`dbFails`) throws into the
handler's catch, which invokes `fs.unlink(req.file.path, cb)`; the file is
gone afterwards unless the deletion itself fails (`deleteFails`). -/
def v2Save (b : Body) (ps : List RawProduct) (f : UploadFile)
    (store : List Order) (now : Nat) (dbFails deleteFails : Bool) : Outcome :=
  if v2ValidationErrors b ps ≠ [] then
    ⟨.saveFailed (v2ValidationErrors b ps),
     if deleteFails then some f.filename else none, true, store⟩
  else if dbFails then
    ⟨.persistenceError, if deleteFails then some f.filename else none, true, store⟩
  else
    ⟨.created (v2NewOrder b ps f now), some f.filename, false,
     store ++ [v2NewOrder b ps f now]⟩

/-- The enhanced `app.post('/api/orders')` handler body (run after multer,
so a present `file` is already written to upload storage).  Order of checks
as in the source: file presence, the `missingFields` filter, the guarded
`JSON.parse(body.products)`, then construction and `save()`.  A parse
outcome that is a well-formed non-array proceeds to construction and fails
the `products` cast inside the try, landing in the catch.  The final `none`
products branch is unreachable: an absent `products` field is caught by the
missing-fields filter. -/
def v2Handler (b : Body) (file : Option UploadFile) (store : List Order)
    (now : Nat) (dbFails deleteFails : Bool) : Outcome :=
  match file with
  | none => ⟨.missingPaymentProof, none, false, store⟩
  | some f =>
    if missingFieldsOf b ≠ [] then
      ⟨.missingFields (missingFieldsOf b), some f.filename, false, store⟩
    else
      match b.products with
      | some .malformed => ⟨.invalidProductsFormat, some f.filename, false, store⟩
      | some (.list ps) => v2Save b ps f store now dbFails deleteFails
      | some .nonList =>
        ⟨.saveFailed ["products"],
         if deleteFails then some f.filename else none, true, store⟩
      | none => ⟨.invalidProductsFormat, some f.filename, false, store⟩

/-- The enhanced server's whole intake pipeline: multer (exact-type file
filter, 5 MiB size limit; a rejected or aborted upload leaves no stored
file) followed by the handler. -/
def v2Submit (b : Body) (upload : Option UploadFile) (store : List Order)
    (now : Nat) (dbFails deleteFails : Bool) : Outcome :=
  match upload with
  | none => v2Handler b none store now dbFails deleteFails
  | some f =>
    if fileFilter f.mimetype then
      if f.size ≤ maxFileSize then v2Handler b (some f) store now dbFails deleteFails
      else ⟨.payloadTooLarge, none, false, store⟩
    else ⟨.unsupportedMediaType, none, false, store⟩

/-- Failing paths of the `models/Order.js` customer subdocument: every field
merely `required` — no email-shape or phone-digit validators exist there. -/
def routesCustomerErrors (c : CustomerInfo) : List String :=
  requiredStr "customerInfo.name" c.name ++
  requiredStr "customerInfo.email" c.email ++
  requiredStr "customerInfo.phone" c.phone ++
  requiredStr "customerInfo.address" c.address ++
  requiredStr "customerInfo.pincode" c.pincode ++
  requiredStr "customerInfo.city" c.city

/-- Failing paths of one product under `models/Order.js`: `productId` is a
`Mixed` required path (any present value passes, including `""`), `name` a
required string, `price` and `quantity` required numbers with no minimum. -/
def routesProductErrors (i : Nat) (p : RawProduct) : List String :=
  let pre := "products." ++ toString i ++ "."
  (match p.productId with
   | none => [pre ++ "productId"]
   | some _ => []) ++
  (match p.name with
   | none => [pre ++ "name"]
   | some s => if s = "" then [pre ++ "name"] else []) ++
  (match p.price with
   | none => [pre ++ "price"]
   | some _ => []) ++
  (match p.quantity with
   | none => [pre ++ "quantity"]
   | some _ => [])

def routesProductErrorsAux : Nat → List RawProduct → List String
  | _, [] => []
  | i, p :: rest => routesProductErrors i p ++ routesProductErrorsAux (i + 1) rest

/-- Failing paths for `totalAmount` under `models/Order.js`: required and a
castable number — no non-negativity constraint. -/
def routesTotalErrors (raw : Option String) : List String :=
  match raw with
  | none => ["totalAmount"]
  | some s => if (parseNumber s).isSome then [] else ["totalAmount"]

/-- All failing paths `models/Order.js` reports on `save()`. -/
def routesValidationErrors (b : Body) (ps : List RawProduct) : List String :=
  routesCustomerErrors (customerOf b) ++ routesProductErrorsAux 0 ps ++
    routesTotalErrors b.totalAmount

/-- The order document the router constructs: like the server's but with
`paymentScreenshot: req.file.path` (under `uploads/payments/`) and an
explicit `status: 'pending'`. -/
def routesNewOrder (b : Body) (ps : List RawProduct) (f : UploadFile)
    (now : Nat) : Order :=
  ⟨customerOf b, ps, (parseNumber (b.totalAmount.getD "")).getD 0,
   "uploads/payments/" ++ f.filename, now, "pending"⟩

/-- The `router.post('/')` handler of routes/orders.js (run after its
multer stage).  Order of checks as in the source: the cart check
`!products || JSON.parse(products).length === 0` (a throwing parse lands in
the catch; a non-array parse has `.length !== 0` and proceeds), then
`!email || !address || !req.file`, then construction with an explicit
`status: 'pending'` and `save()`.  The router never deletes an uploaded
file: its catch only answers 400. -/
def routesHandler (b : Body) (file : Option UploadFile) (store : List Order)
    (now : Nat) (dbFails : Bool) : Outcome :=
  match b.products with
  | none => ⟨.emptyCart, file.map (fun f => f.filename), false, store⟩
  | some .malformed => ⟨.processingFailed, file.map (fun f => f.filename), false, store⟩
  | some .nonList => ⟨.processingFailed, file.map (fun f => f.filename), false, store⟩
  | some (.list ps) =>
    if ps.length = 0 then ⟨.emptyCart, file.map (fun f => f.filename), false, store⟩
    else
      match file with
      | none => ⟨.requiredMissingGeneric, none, false, store⟩
      | some f =>
        if !(fieldPresent b.email) || !(fieldPresent b.address) then
          ⟨.requiredMissingGeneric, some f.filename, false, store⟩
        else
          if routesValidationErrors b ps ≠ [] then
            ⟨.saveFailed (routesValidationErrors b ps), some f.filename, false, store⟩
          else if dbFails then ⟨.persistenceError, some f.filename, false, store⟩
          else
            ⟨.created (routesNewOrder b ps f now), some f.filename, false,
             store ++ [routesNewOrder b ps f now]⟩

/-- The router pipeline of routes/orders.js: its multer stage applies only
the `startsWith('image/')` filter — no size limit is configured — then the
handler runs. -/
def routesSubmit (b : Body) (upload : Option UploadFile) (store : List Order)
    (now : Nat) (dbFails : Bool) : Outcome :=
  match upload with
  | none => routesHandler b none store now dbFails
  | some f =>
    if routesFileFilter f.mimetype then routesHandler b (some f) store now dbFails
    else ⟨.unsupportedMediaType, none, false, store⟩

/-- Outcome of the original server handler.  `response = none` models the
handler throwing out of its own catch block (`fs.unlinkSync` failing), so no
response is produced by the route and the error escalates to the framework. -/
structure V1Outcome where
  response : Option IntakeResult
  storedFile : Option String
  orders : List Order
deriving Repr, DecidableEq

/-- `!name || !email || ... || !products` — the original handler's single
combined required-fields check. -/
def v1AllFieldsPresent (b : Body) : Bool :=
  requiredFields.all (fun f => bodyHas b f)

/-- Failing paths of the original server schema on `save()`: every path
merely `required` (string paths fail on `""`), no email/phone validators and
no minimums; `totalAmount` is passed raw and must cast. -/
def v1ValidationErrors (b : Body) (ps : List RawProduct) : List String :=
  routesCustomerErrors (customerOf b) ++ routesProductErrorsAux 0 ps ++
    routesTotalErrors b.totalAmount

/-- The original handler's catch block: `if (req.file) fs.unlinkSync(...)`
then the 500 response.  A throwing `unlinkSync` escapes the catch, so no
response is sent and the file stays. -/
def v1Catch (thrown : IntakeResult) (file : Option UploadFile)
    (deleteFails : Bool) (store : List Order) : V1Outcome :=
  match file with
  | none => ⟨some thrown, none, store⟩
  | some f =>
    if deleteFails then ⟨none, some f.filename, store⟩
    else ⟨some thrown, none, store⟩

/-- The try-block tail of the original handler once the parse outcome of
`products` is at hand: a throwing or non-array parse, a schema validation
failure, or a storage failure all land in the catch; otherwise the order is
persisted. -/
def v1SaveStage (b : Body) (pf : ProductsField) (f : UploadFile)
    (store : List Order) (now : Nat) (dbFails deleteFails : Bool) : V1Outcome :=
  match pf with
  | .malformed => v1Catch .processingFailed (some f) deleteFails store
  | .nonList => v1Catch (.saveFailed ["products"]) (some f) deleteFails store
  | .list ps =>
    if v1ValidationErrors b ps ≠ [] then
      v1Catch (.saveFailed (v1ValidationErrors b ps)) (some f) deleteFails store
    else if dbFails then v1Catch .persistenceError (some f) deleteFails store
    else
      ⟨some (.created (v2NewOrder b ps f now)), some f.filename,
       store ++ [v2NewOrder b ps f now]⟩

/-- The original server pipeline (first handler in server.js): same multer
configuration as the enhanced one, the combined required-fields check, an
unguarded `JSON.parse(products)` inside the try, construction and `save()`;
every throw lands in the catch above. -/
def v1Submit (b : Body) (upload : Option UploadFile) (store : List Order)
    (now : Nat) (dbFails deleteFails : Bool) : V1Outcome :=
  match upload with
  | none => ⟨some .missingPaymentProof, none, store⟩
  | some f =>
    if !(fileFilter f.mimetype) then ⟨some .unsupportedMediaType, none, store⟩
    else if maxFileSize < f.size then ⟨some .payloadTooLarge, none, store⟩
    else if !(v1AllFieldsPresent b) then
      ⟨some .allFieldsRequired, some f.filename, store⟩
    else
      match b.products with
      | some pf => v1SaveStage b pf f store now dbFails deleteFails
      | none => ⟨some .allFieldsRequired, some f.filename, store⟩

/-- Descending order-date comparison used by the listing endpoints
(`Order.find().sort({ orderDate: -1 })`). -/
def dateGe (a b : Order) : Prop := b.orderDate ≤ a.orderDate

instance : DecidableRel dateGe := fun a b => Nat.decLe b.orderDate a.orderDate

instance : IsTotal Order dateGe := ⟨fun a b => Nat.le_total b.orderDate a.orderDate⟩

instance : IsTrans Order dateGe :=
  ⟨fun _ _ _ h1 h2 => Nat.le_trans h2 h1⟩

/-- The listing operation `GET /api/orders`: all persisted orders sorted by
`orderDate` descending (a stable sort, matching the store's sort). -/
def listAll (store : List Order) : List Order :=
  store.insertionSort dateGe

/-- Is the outcome a successfully created order? -/
def isCreated : IntakeResult → Bool
  | .created _ => true
  | _ => false

/-- Replace only the client-supplied `status` field of a body. -/
def setStatus (b : Body) (s : Option String) : Body :=
  ⟨b.name, b.email, b.phone, b.address, b.pincode, b.city, b.totalAmount,
   b.products, s⟩

/-- A fully valid sample product line (the spec's success scenario). -/
def sampleProduct : RawProduct := ⟨some "p1", some "Widget", some 100, some 1, none⟩

/-- A fully valid submission body (name A, email a@b.com, phone 1234567890,
address X, pincode 000, city Y, totalAmount 100, one product, no
client-supplied status). -/
def validBody : Body :=
  ⟨some "A", some "a@b.com", some "1234567890", some "X", some "000", some "Y",
   some "100", some (.list [sampleProduct]), none⟩

/-- A small valid JPEG upload. -/
def jpegFile : UploadFile := ⟨"image/jpeg", 1000, "pay.jpg"⟩

/-- A GIF upload: its declared type is outside the server allow-list but has
the `image/` prefix. -/
def gifFile : UploadFile := ⟨"image/gif", 1000, "pay.gif"⟩

/-- A PDF upload. -/
def pdfFile : UploadFile := ⟨"application/pdf", 1000, "doc.pdf"⟩

/-- A 6 MiB JPEG upload, over the configured limit. -/
def bigJpegFile : UploadFile := ⟨"image/jpeg", 6 * 1024 * 1024, "big.jpg"⟩

/-- `validBody` with the email field absent. -/
def noEmailBody : Body :=
  ⟨some "A", none, some "1234567890", some "X", some "000", some "Y",
   some "100", some (.list [sampleProduct]), none⟩

/-- `validBody` with both the email and the city fields absent. -/
def noEmailCityBody : Body :=
  ⟨some "A", none, some "1234567890", some "X", some "000", none,
   some "100", some (.list [sampleProduct]), none⟩

/-- `validBody` with a products string that parses to the empty list. -/
def emptyCartBody : Body :=
  ⟨some "A", some "a@b.com", some "1234567890", some "X", some "000", some "Y",
   some "100", some (.list []), none⟩

/-- `validBody` with phone `"12345"` (not ten digits). -/
def badPhoneBody : Body :=
  ⟨some "A", some "a@b.com", some "12345", some "X", some "000", some "Y",
   some "100", some (.list [sampleProduct]), none⟩

/-- `validBody` with a shapeless email and a five-digit phone. -/
def badEmailPhoneBody : Body :=
  ⟨some "A", some "bademail", some "12345", some "X", some "000", some "Y",
   some "100", some (.list [sampleProduct]), none⟩

/-- The order the enhanced pipeline persists for `validBody` at time 7. -/
def validOrder : Order :=
  ⟨⟨"A", "a@b.com", "1234567890", "X", "000", "Y"⟩, [sampleProduct], 100,
   "/uploads/pay.jpg", 7, "pending"⟩

/-- The order the enhanced pipeline persists for `emptyCartBody` at time 7. -/
def emptyCartOrder : Order :=
  ⟨⟨"A", "a@b.com", "1234567890", "X", "000", "Y"⟩, [], 100,
   "/uploads/pay.jpg", 7, "pending"⟩

/-- A valid persisted order with the given order date. -/
def sampleOrder (d : Nat) : Order :=
  ⟨⟨"A", "a@b.com", "1234567890", "X", "000", "Y"⟩, [sampleProduct], 100,
   "/uploads/pay.jpg", d, "pending"⟩

example : emailShape "a@b.com" = true := by decide
example : phoneValid "1234567890" = true := by decide
example : phoneValid "12345" = false := by decide
example : parseNumber "100" = some 100 := by decide
example : missingFieldsOf validBody = [] := by decide
example : v2ValidationErrors validBody [sampleProduct] = [] := by decide
example :
    v2Submit validBody (some jpegFile) [] 7 false false =
      ⟨.created validOrder, some "pay.jpg", false, [validOrder]⟩ := by decide
example :
    (routesSubmit validBody (some jpegFile) [] 7 false).result =
      .created ⟨⟨"A", "a@b.com", "1234567890", "X", "000", "Y"⟩, [sampleProduct],
        100, "uploads/payments/pay.jpg", 7, "pending"⟩ := by decide
example :
    (v1Submit validBody (some jpegFile) [] 7 false false).response =
      some (.created validOrder) := by decide

/-- A string starting with `/uploads/` is never empty. -/
theorem uploads_ne_empty (s : String) : "/uploads/" ++ s ≠ "" := by
  intro h
  have h2 : ("/uploads/" ++ s).data = ("" : String).data := by rw [h]
  rw [String.data_append] at h2
  have h3 := List.append_eq_nil.mp h2
  exact absurd h3.1 (by decide)

/-- The enhanced handler never answers `payloadTooLarge` (that rejection is
multer's alone). -/
theorem v2Handler_result_ne_payloadTooLarge (b : Body) (file : Option UploadFile)
    (store : List Order) (now : Nat) (dbFails deleteFails : Bool) :
    (v2Handler b file store now dbFails deleteFails).result ≠ .payloadTooLarge := by
  unfold v2Handler v2Save
  rcases file with _ | f
  · simp
  · split
    · simp
    · split <;> (repeat' split) <;> simp

/-- If the original handler's combined check passes, the products field is
present. -/
theorem products_some_of_all (b : Body) (h : v1AllFieldsPresent b = true) :
    ∃ pf, b.products = some pf := by
  cases hb : b.products with
  | some pf => exact ⟨pf, rfl⟩
  | none =>
    exfalso
    unfold v1AllFieldsPresent at h
    simp [requiredFields] at h
    have hp := h.2.2.2.2.2.2.2
    simp [bodyHas, productsPresent, hb] at hp

/-- C1 (counterexample): a submission whose payment-proof file passed multer
(so it is already written to storage) and whose body is missing `email`
fails validation with the missing-fields error, yet the stored file remains
in upload storage and no deletion is invoked — an orphaned upload. -/
theorem C1_counterexample :
    (v2Submit noEmailBody (some jpegFile) [] 7 false false).result =
        .missingFields ["email"] ∧
    (v2Submit noEmailBody (some jpegFile) [] 7 false false).storedFile =
        some "pay.jpg" ∧
    (v2Submit noEmailBody (some jpegFile) [] 7 false false).unlinkCalled = false := by
  decide

/-- C1 (amended): after the file is stored, only failures raised during
order construction/save (invalid field values, persistence failure) trigger
the compensating deletion via the catch handler; the missing-fields and
invalid-products-format early returns send their error with the stored file
left in place. -/
theorem C1_amended (b : Body) (f : UploadFile) (store : List Order) (now : Nat)
    (dbFails deleteFails : Bool)
    (hm : fileFilter f.mimetype = true) (hs : f.size ≤ maxFileSize) :
    (missingFieldsOf b ≠ [] →
      v2Submit b (some f) store now dbFails deleteFails =
        ⟨.missingFields (missingFieldsOf b), some f.filename, false, store⟩) ∧
    (missingFieldsOf b = [] → b.products = some .malformed →
      v2Submit b (some f) store now dbFails deleteFails =
        ⟨.invalidProductsFormat, some f.filename, false, store⟩) ∧
    (∀ ps, b.products = some (.list ps) → v2ValidationErrors b ps ≠ [] →
      missingFieldsOf b = [] →
      v2Submit b (some f) store now dbFails deleteFails =
        ⟨.saveFailed (v2ValidationErrors b ps),
         if deleteFails then some f.filename else none, true, store⟩) := by
  refine ⟨?_, ?_, ?_⟩
  · intro hmiss
    simp [v2Submit, hm, hs, v2Handler, hmiss]
  · intro hmiss hprod
    simp [v2Submit, hm, hs, v2Handler, hmiss, hprod]
  · intro ps hprod herr hmiss
    simp [v2Submit, hm, hs, v2Handler, hmiss, hprod, v2Save, herr]

theorem C1_amended_witness :
    v2Submit noEmailBody (some jpegFile) [] 7 false false =
      ⟨.missingFields (missingFieldsOf noEmailBody), some "pay.jpg", false, []⟩ :=
  (C1_amended noEmailBody jpegFile [] 7 false false (by decide) (by decide)).1
    (by decide)

/-- C2 (counterexample): in the router implementation the claim fails — a
submission missing both `email` and `city` is answered by the generic
`Required fields missing` branch, whose error names no field at all. -/
theorem C2_counterexample :
    bodyHas noEmailCityBody "email" = false ∧
    bodyHas noEmailCityBody "city" = false ∧
    (routesSubmit noEmailCityBody (some jpegFile) [] 7 false).result =
      .requiredMissingGeneric := by
  decide

/-- C2 (amended): the enhanced server handler accumulates and names every
absent required field (exactly the required fields whose body value is
falsy); the router variant checks only email, address and the file and
answers with a generic message naming none. -/
theorem C2_amended (b : Body) (f : UploadFile) (store : List Order) (now : Nat)
    (dbFails deleteFails : Bool)
    (hm : fileFilter f.mimetype = true) (hs : f.size ≤ maxFileSize)
    (hmiss : missingFieldsOf b ≠ []) :
    (v2Submit b (some f) store now dbFails deleteFails).result =
      .missingFields (missingFieldsOf b) ∧
    (∀ fld, fld ∈ missingFieldsOf b ↔
      fld ∈ requiredFields ∧ bodyHas b fld = false) ∧
    (∀ (b' : Body) (ps : List RawProduct) (f' : UploadFile) (store' : List Order)
       (now' : Nat) (dbF : Bool),
      b'.products = some (.list ps) → ps ≠ [] →
      fieldPresent b'.email = false → routesFileFilter f'.mimetype = true →
      (routesSubmit b' (some f') store' now' dbF).result =
        .requiredMissingGeneric) := by
  refine ⟨?_, ?_, ?_⟩
  · simp [v2Submit, hm, hs, v2Handler, hmiss]
  · intro fld
    simp [missingFieldsOf, List.mem_filter]
  · intro b' ps f' store' now' dbF hprod hps hemail hfilter
    simp [routesSubmit, hfilter, routesHandler, hprod,
      List.length_eq_zero, hps, hemail]

theorem C2_amended_witness :
    (v2Submit noEmailCityBody (some jpegFile) [] 7 false false).result =
      .missingFields (missingFieldsOf noEmailCityBody) ∧
    "email" ∈ missingFieldsOf noEmailCityBody ∧
    "city" ∈ missingFieldsOf noEmailCityBody := by
  have h := C2_amended noEmailCityBody jpegFile [] 7 false false
    (by decide) (by decide) (by decide)
  exact ⟨h.1, by decide, by decide⟩

/-- C3 (counterexample): the router's prefix-based filter accepts
`image/gif`, a declared type outside the allow-set, and such a submission is
accepted end to end (an order is created). -/
theorem C3_counterexample :
    allowedTypes.contains "image/gif" = false ∧
    routesFileFilter "image/gif" = true ∧
    isCreated (routesSubmit validBody (some gifFile) [] 7 false).result = true := by
  decide

/-- C3 (amended): the server pipeline rejects every declared type outside
the allow-set before the handler runs and stores nothing;
`application/pdf` in particular is rejected by both the server's exact
filter and the router's prefix filter; but the router accepts any type with
prefix `image/`, including types outside the allow-set. -/
theorem C3_amended :
    (∀ (b : Body) (f : UploadFile) (store : List Order) (now : Nat)
       (dbF delF : Bool),
      allowedTypes.contains f.mimetype = false →
      v2Submit b (some f) store now dbF delF =
        ⟨.unsupportedMediaType, none, false, store⟩) ∧
    (∀ f : UploadFile, f.mimetype = "application/pdf" →
      fileFilter f.mimetype = false ∧ routesFileFilter f.mimetype = false) := by
  constructor
  · intro b f store now dbF delF hm
    have hff : fileFilter f.mimetype = false := hm
    simp [v2Submit, hff]
  · intro f hf
    rw [hf]
    exact ⟨by decide, by decide⟩

theorem C3_amended_witness :
    v2Submit validBody (some pdfFile) [] 7 false false =
      ⟨.unsupportedMediaType, none, false, []⟩ ∧
    fileFilter pdfFile.mimetype = false ∧
    routesFileFilter pdfFile.mimetype = false :=
  ⟨C3_amended.1 validBody pdfFile [] 7 false false (by decide),
   C3_amended.2 pdfFile rfl⟩

/-- C4 (counterexample): a submission whose products string parses to the
empty list and whose every other field is valid is not answered with the
empty-cart error by the enhanced handler — it is accepted and persisted with
an empty products list. -/
theorem C4_counterexample :
    v2Submit emptyCartBody (some jpegFile) [] 7 false false =
      ⟨.created emptyCartOrder, some "pay.jpg", false, [emptyCartOrder]⟩ ∧
    emptyCartOrder.products = [] := by
  decide

/-- C4 (amended): a products string on which the parse throws yields the
invalid-products-format error; but an empty parsed list is not rejected —
with all other fields valid the enhanced handler persists an order whose
products list is empty (the empty-cart check exists only in the router
variant). -/
theorem C4_amended (b : Body) (f : UploadFile) (store : List Order) (now : Nat)
    (dbFails deleteFails : Bool)
    (hm : fileFilter f.mimetype = true) (hs : f.size ≤ maxFileSize)
    (hmiss : missingFieldsOf b = []) :
    (b.products = some .malformed →
      v2Submit b (some f) store now dbFails deleteFails =
        ⟨.invalidProductsFormat, some f.filename, false, store⟩) ∧
    (b.products = some (.list []) → v2ValidationErrors b [] = [] →
      v2Submit b (some f) store now false deleteFails =
        ⟨.created (v2NewOrder b [] f now), some f.filename, false,
         store ++ [v2NewOrder b [] f now]⟩) := by
  constructor
  · intro hprod
    simp [v2Submit, hm, hs, v2Handler, hmiss, hprod]
  · intro hprod hv
    simp [v2Submit, hm, hs, v2Handler, hmiss, hprod, v2Save, hv]

theorem C4_amended_witness :
    v2Submit emptyCartBody (some jpegFile) [] 7 false false =
      ⟨.created (v2NewOrder emptyCartBody [] jpegFile 7), some jpegFile.filename,
       false, [v2NewOrder emptyCartBody [] jpegFile 7]⟩ :=
  (C4_amended emptyCartBody jpegFile [] 7 false false (by decide) (by decide)
    (by decide)).2 (by decide) (by decide)

/-- C5 (counterexample): the router pipeline (whose schema,
models/Order.js, has no email-shape, phone-digit or total-amount
validators) accepts a submission with phone `"12345"`: no validation failure
is produced, the order is persisted with that phone, and no file cleanup
happens. -/
theorem C5_counterexample :
    phoneValid "12345" = false ∧
    (routesSubmit badPhoneBody (some jpegFile) [] 7 false).result =
      .created ⟨⟨"A", "a@b.com", "12345", "X", "000", "Y"⟩, [sampleProduct],
        100, "uploads/payments/pay.jpg", 7, "pending"⟩ ∧
    (routesSubmit badPhoneBody (some jpegFile) [] 7 false).unlinkCalled = false := by
  decide

/-- The totalAmount path reports either nothing or exactly its own path. -/
theorem v2TotalErrors_cases (raw : Option String) :
    v2TotalErrors raw = [] ∨ v2TotalErrors raw = ["totalAmount"] := by
  rcases raw with _ | s
  · exact Or.inr rfl
  · rcases hp : parseNumber s with _ | v
    · right
      simp [v2TotalErrors, hp]
    · rcases Int.lt_or_le v 0 with hv | hv
      · right
        simp [v2TotalErrors, hp, hv]
      · left
        simp [v2TotalErrors, hp, Int.not_lt.mpr hv]

/-- C5 (amended): in the enhanced handler an ill-shaped email, a
non-ten-digit phone and a non-castable or negative totalAmount each
contribute their field path to the single aggregated validation-error list
(no fail-fast), the submission fails with that list, and the compensating
deletion of the stored file is invoked; the router variant performs none of
these checks. -/
theorem C5_amended (b : Body) (f : UploadFile) (store : List Order) (now : Nat)
    (dbFails deleteFails : Bool) (ps : List RawProduct)
    (hm : fileFilter f.mimetype = true) (hs : f.size ≤ maxFileSize)
    (hmiss : missingFieldsOf b = []) (hprod : b.products = some (.list ps)) :
    (emailShape (b.email.getD "") = false →
      "customerInfo.email" ∈ v2ValidationErrors b ps) ∧
    (phoneValid (b.phone.getD "") = false →
      "customerInfo.phone" ∈ v2ValidationErrors b ps) ∧
    (v2TotalErrors b.totalAmount ≠ [] →
      "totalAmount" ∈ v2ValidationErrors b ps) ∧
    (v2ValidationErrors b ps ≠ [] →
      (v2Submit b (some f) store now dbFails deleteFails).result =
        .saveFailed (v2ValidationErrors b ps) ∧
      (v2Submit b (some f) store now dbFails deleteFails).unlinkCalled = true) := by
  refine ⟨?_, ?_, ?_, ?_⟩
  · intro h
    simp [v2ValidationErrors, v2CustomerErrors, customerOf, h]
  · intro h
    simp [v2ValidationErrors, v2CustomerErrors, customerOf, h]
  · intro h
    rcases v2TotalErrors_cases b.totalAmount with h0 | h1
    · exact absurd h0 h
    · simp only [v2ValidationErrors, List.mem_append]
      refine Or.inr ?_
      rw [h1]
      simp
  · intro herr
    constructor
    · simp [v2Submit, hm, hs, v2Handler, hmiss, hprod, v2Save, herr]
    · simp [v2Submit, hm, hs, v2Handler, hmiss, hprod, v2Save, herr]

theorem C5_amended_witness :
    "customerInfo.email" ∈ v2ValidationErrors badEmailPhoneBody [sampleProduct] ∧
    "customerInfo.phone" ∈ v2ValidationErrors badEmailPhoneBody [sampleProduct] ∧
    (v2Submit badEmailPhoneBody (some jpegFile) [] 7 false false).result =
      .saveFailed (v2ValidationErrors badEmailPhoneBody [sampleProduct]) ∧
    (v2Submit badEmailPhoneBody (some jpegFile) [] 7 false false).unlinkCalled =
      true := by
  have h := C5_amended badEmailPhoneBody jpegFile [] 7 false false [sampleProduct]
    (by decide) (by decide) (by decide) (by decide)
  exact ⟨h.1 (by decide), h.2.1 (by decide),
    (h.2.2.2 (by decide)).1, (h.2.2.2 (by decide)).2⟩

/-- C6 (counterexample): the router's multer configuration sets no size
limit, so a 6 MiB upload (over the 5 MiB bound) is accepted end to end by
that pipeline instead of being rejected with the payload-too-large error. -/
theorem C6_counterexample :
    maxFileSize < bigJpegFile.size ∧
    isCreated (routesSubmit validBody (some bigJpegFile) [] 7 false).result =
      true := by
  decide

/-- C6 (amended): the server pipeline rejects an allowed-type upload whose
byte stream exceeds 5 MiB with the payload-too-large error and stores
nothing, and never issues that rejection for a stream at or below the
limit; the router variant configures no size limit at all. -/
theorem C6_amended (b : Body) (f : UploadFile) (store : List Order) (now : Nat)
    (dbFails deleteFails : Bool) (hm : fileFilter f.mimetype = true) :
    (maxFileSize < f.size →
      v2Submit b (some f) store now dbFails deleteFails =
        ⟨.payloadTooLarge, none, false, store⟩) ∧
    (f.size ≤ maxFileSize →
      (v2Submit b (some f) store now dbFails deleteFails).result ≠
        .payloadTooLarge) := by
  constructor
  · intro hbig
    simp [v2Submit, hm, Nat.not_le.mpr hbig]
  · intro hs
    simp only [v2Submit, hm, hs, if_true, ite_true]
    exact v2Handler_result_ne_payloadTooLarge b (some f) store now dbFails deleteFails

theorem C6_amended_witness :
    v2Submit validBody (some bigJpegFile) [] 7 false false =
      ⟨.payloadTooLarge, none, false, []⟩ ∧
    (v2Submit validBody (some jpegFile) [] 7 false false).result ≠
      .payloadTooLarge :=
  ⟨(C6_amended validBody bigJpegFile [] 7 false false (by decide)).1 (by decide),
   (C6_amended validBody jpegFile [] 7 false false (by decide)).2 (by decide)⟩

/-- C7 (confirmed): the listing operation returns a permutation of the
persisted orders sorted by orderDate descending; on empty storage it
returns the empty sequence; and after inserting orders with orderDate
T1 < T2 < T3 it returns them in order [T3, T2, T1]. -/
theorem C7_listing_sorted :
    (∀ store : List Order,
      List.Perm (listAll store) store ∧ List.Sorted dateGe (listAll store)) ∧
    listAll ([] : List Order) = [] ∧
    (∀ o1 o2 o3 : Order,
      o1.orderDate < o2.orderDate → o2.orderDate < o3.orderDate →
      listAll [o1, o2, o3] = [o3, o2, o1]) := by
  refine ⟨fun store => ⟨List.perm_insertionSort dateGe store,
    List.sorted_insertionSort dateGe store⟩, rfl, ?_⟩
  intro o1 o2 o3 h12 h23
  have h13 : o1.orderDate < o3.orderDate := Nat.lt_trans h12 h23
  simp [listAll, List.insertionSort, List.orderedInsert, dateGe,
    Nat.not_le.mpr h12, Nat.not_le.mpr h23, Nat.not_le.mpr h13]

theorem C7_listing_sorted_witness :
    listAll [sampleOrder 1, sampleOrder 2, sampleOrder 3] =
      [sampleOrder 3, sampleOrder 2, sampleOrder 1] :=
  C7_listing_sorted.2.2 (sampleOrder 1) (sampleOrder 2) (sampleOrder 3)
    (by decide) (by decide)

/-- C8 (counterexample): the intake pipeline persists an order whose
products list is empty, violating the claimed invariant (the payment
screenshot reference, by contrast, is non-empty). -/
theorem C8_counterexample :
    (v2Submit emptyCartBody (some jpegFile) [] 7 false false).orders =
      [emptyCartOrder] ∧
    emptyCartOrder.products = [] ∧
    emptyCartOrder.paymentScreenshot ≠ "" := by
  decide

/-- C8 (amended): the non-empty-paymentScreenshot half of the invariant
does hold — the enhanced pipeline requires the upload and always stores
`/uploads/<filename>` — so it is preserved over every submission; the
non-empty-products half is refuted by the counterexample. -/
theorem C8_amended (b : Body) (upload : Option UploadFile) (store : List Order)
    (now : Nat) (dbFails deleteFails : Bool)
    (hinv : ∀ o ∈ store, o.paymentScreenshot ≠ "") :
    ∀ o ∈ (v2Submit b upload store now dbFails deleteFails).orders,
      o.paymentScreenshot ≠ "" := by
  intro o ho
  rcases upload with _ | f
  · exact hinv o ho
  · simp only [v2Submit, v2Handler, v2Save] at ho
    split at ho
    · split at ho
      · split at ho
        · exact hinv o ho
        · split at ho
          · exact hinv o ho
          · split at ho
            · exact hinv o ho
            · split at ho
              · exact hinv o ho
              · rw [List.mem_append] at ho
                rcases ho with ho | ho
                · exact hinv o ho
                · rw [List.mem_singleton] at ho
                  subst ho
                  exact uploads_ne_empty f.filename
          · exact hinv o ho
          · exact hinv o ho
      · exact hinv o ho
    · exact hinv o ho

theorem C8_amended_witness :
    validOrder.paymentScreenshot ≠ "" :=
  C8_amended validBody (some jpegFile) [] 7 false false
    (fun o ho => absurd ho (List.not_mem_nil o)) validOrder (by decide)

/-- C9 (counterexample): in the original server handler the compensating
deletion is `fs.unlinkSync` inside the catch; when that deletion fails the
exception escapes the catch block and no response is produced at all — the
very same failing submission that yields the 500 error when deletion
succeeds yields no error result when deletion fails. -/
theorem C9_counterexample :
    (v1Submit validBody (some jpegFile) [] 7 true true).response = none ∧
    (v1Submit validBody (some jpegFile) [] 7 true false).response =
      some .persistenceError := by
  decide

/-- C9 (amended): in the enhanced handler the deletion failure is swallowed
(callback only logs), so the response and the persisted orders are
identical whether or not the deletion fails; in the original handler a
deletion failure prevents the error response from being sent. -/
theorem C9_amended :
    (∀ (b : Body) (u : Option UploadFile) (store : List Order) (now : Nat)
       (dbF : Bool),
      (v2Submit b u store now dbF true).result =
        (v2Submit b u store now dbF false).result ∧
      (v2Submit b u store now dbF true).orders =
        (v2Submit b u store now dbF false).orders) ∧
    (∀ (b : Body) (f : UploadFile) (store : List Order) (now : Nat),
      fileFilter f.mimetype = true → f.size ≤ maxFileSize →
      v1AllFieldsPresent b = true →
      (v1Submit b (some f) store now true true).response = none ∧
      (v1Submit b (some f) store now true false).response.isSome = true) := by
  constructor
  · intro b u store now dbF
    rcases u with _ | f
    · exact ⟨rfl, rfl⟩
    · by_cases hm : fileFilter f.mimetype = true
      · by_cases hs : f.size ≤ maxFileSize
        · by_cases hmiss : missingFieldsOf b = []
          · rcases hp : b.products with _ | pf
            · simp [v2Submit, hm, hs, v2Handler, hmiss, hp]
            · cases pf with
              | malformed => simp [v2Submit, hm, hs, v2Handler, hmiss, hp]
              | nonList => simp [v2Submit, hm, hs, v2Handler, hmiss, hp]
              | list ps =>
                by_cases herr : v2ValidationErrors b ps = []
                · cases dbF <;>
                    simp [v2Submit, hm, hs, v2Handler, hmiss, hp, v2Save, herr]
                · simp [v2Submit, hm, hs, v2Handler, hmiss, hp, v2Save, herr]
          · simp [v2Submit, hm, hs, v2Handler, hmiss]
        · simp [v2Submit, hm, hs]
      · simp [v2Submit, hm]
  · intro b f store now hm hs hall
    obtain ⟨pf, hpf⟩ := products_some_of_all b hall
    have hred : ∀ delF : Bool, v1Submit b (some f) store now true delF =
        v1SaveStage b pf f store now true delF := by
      intro delF
      simp [v1Submit, hm, hall, hpf, Nat.not_lt.mpr hs]
    rw [hred true, hred false]
    constructor
    · cases pf with
      | malformed => simp [v1SaveStage, v1Catch]
      | nonList => simp [v1SaveStage, v1Catch]
      | list ps =>
        simp only [v1SaveStage]
        split <;> simp [v1Catch]
    · cases pf with
      | malformed => simp [v1SaveStage, v1Catch]
      | nonList => simp [v1SaveStage, v1Catch]
      | list ps =>
        simp only [v1SaveStage]
        split <;> simp [v1Catch]

theorem C9_amended_witness :
    (v2Submit validBody (some jpegFile) [] 7 true true).result =
      (v2Submit validBody (some jpegFile) [] 7 true false).result ∧
    (v1Submit validBody (some jpegFile) [] 7 true true).response = none := by
  refine ⟨(C9_amended.1 validBody (some jpegFile) [] 7 true).1, ?_⟩
  exact (C9_amended.2 validBody jpegFile [] 7 (by decide) (by decide)
    (by decide)).1

/-- C10 (confirmed): every order the enhanced pipeline persists has status
`pending`, and the whole pipeline outcome is independent of any
client-supplied status field — two submissions differing only in that field
produce identical outcomes. -/
theorem C10_status_pending :
    (∀ (b : Body) (u : Option UploadFile) (store : List Order) (now : Nat)
       (dbF delF : Bool) (o : Order),
      (v2Submit b u store now dbF delF).result = .created o →
      o.status = "pending") ∧
    (∀ (b : Body) (s : Option String) (u : Option UploadFile)
       (store : List Order) (now : Nat) (dbF delF : Bool),
      v2Submit (setStatus b s) u store now dbF delF =
        v2Submit b u store now dbF delF) := by
  constructor
  · intro b u store now dbF delF o h
    rcases u with _ | f
    · simp [v2Submit, v2Handler] at h
    · simp only [v2Submit, v2Handler, v2Save] at h
      split at h
      · split at h
        · split at h
          · simp at h
          · split at h
            · simp at h
            · split at h
              · simp at h
              · split at h
                · simp at h
                · simp only [IntakeResult.created.injEq] at h
                  subst h
                  rfl
            · simp at h
            · simp at h
        · simp at h
      · simp at h
  · intro b s u store now dbF delF
    rfl

theorem C10_status_pending_witness :
    validOrder.status = "pending" :=
  C10_status_pending.1 validBody (some jpegFile) [] 7 false false validOrder
    (by decide)

end Autokraft
